import Mathlib

/-!
Shallow embedding of `src/actions.py` (rgstephens/helpdesk-assistant), a
Rasa custom-action server for a ServiceNow helpdesk bot.  Python functions
become Lean functions; the dispatcher and the HTTP layer become explicit
data (lists of dispatched messages, a parameter describing the outcome of
each network call); Python exceptions become `Except`.
-/

namespace Helpdesk

/-- Tracker / returned events (rasa_sdk.events), restricted to the
constructors this module emits or inspects. -/
inductive Event where
  | sessionStarted : Event
  | slotSet (key : String) (value : Option String) (metadata : Option String) : Event
  | actionExecuted (name : String) : Event
  | allSlotsReset : Event
  | restarted : Event
deriving DecidableEq, Repr

/-- The fixed user table of `generate_mock_profile` (name, email pairs). -/
def mock_users : List (String × String) :=
  [ ("Abel", "abel.tuter@example.com"),
    ("Abraham", "abraham.lincoln@example.com"),
    ("Adela", "adela.cervantsz@example.com"),
    ("Aileen", "aileen.mottern@example.com"),
    ("Allyson", "allyson.gillispie@example.com"),
    ("Alva", "alva.pennigton@example.com"),
    ("Amos", "amos.linnan@example.com") ]

/-- The fixed site table of `generate_mock_profile`. -/
def mock_sites : List String :=
  ["Berlin", "San Francisco", "Seattle", "London", "Austin", "Dallas",
   "New York", "Zürich"]

/-- Result record of `generate_mock_profile`: an insertion-ordered dict
with keys profile_name, email, profile_site (email may be None). -/
structure MockProfile where
  profile_name : String
  email : Option String
  profile_site : String
deriving DecidableEq, Repr

/-- `generate_mock_profile`.  The two `random.randint(0, len - 1)` draws
are passed in as `n` (user index) and `m` (site index); `randint` is
inclusive on both ends, so each index ranges over the full table. -/
def generate_mock_profile (use_profile_email : Bool)
    (n : Fin mock_users.length) (m : Fin mock_sites.length) : MockProfile :=
  { profile_name := (mock_users.get n).1,
    email := if use_profile_email then some (mock_users.get n).2 else none,
    profile_site := mock_sites.get m }

/-- `ActionSessionStart._slot_set_events_from_tracker`: rebuild a SlotSet
event (same key, value, metadata) for every SlotSet among the applied
events of the tracker. -/
def slot_set_events_from_tracker (applied_events : List Event) : List Event :=
  applied_events.filterMap fun e =>
    match e with
    | .slotSet key value metadata => some (.slotSet key value metadata)
    | _ => none

/-- The loop `for key, value in user_profile.items(): if value is not None:
events.append(SlotSet(key=key, value=value))` over the three-key profile
dict, in Python dict insertion order. -/
def profile_slot_events (p : MockProfile) : List Event :=
  [Event.slotSet "profile_name" (some p.profile_name) none]
  ++ (match p.email with
      | some e => [Event.slotSet "email" (some e) none]
      | none => [])
  ++ [Event.slotSet "profile_site" (some p.profile_site) none]

/-- Membership test of a key in a Python dict modelled as an association
list (the `in` operator tests keys only, never values). -/
def dict_has_key (d : List (String × Bool)) (k : String) : Bool :=
  d.any fun kv => kv.1 = k

/-- `ActionSessionStart.run`.  `session_config` is
`domain.get("session_config", {})` as an association list from keys to the
boolean values this module could meet there; `applied_events` is
`tracker.applied_events()`; the profile randomness is `n`, `m`. -/
def action_session_start_run (session_config : List (String × Bool))
    (applied_events : List Event) (use_profile_email : Bool)
    (n : Fin mock_users.length) (m : Fin mock_sites.length) : List Event :=
  [Event.sessionStarted]
  ++ (if dict_has_key session_config "carry_over_slots" then
        slot_set_events_from_tracker applied_events
      else [])
  ++ profile_slot_events (generate_mock_profile use_profile_email n m)
  ++ [Event.actionExecuted "action_listen"]

/-- A record of the ServiceNow `sys_user` table as consumed by this
module (only `sys_id` is ever read). -/
structure SysUser where
  sys_id : String
deriving DecidableEq, Repr

/-- Outcome of the `requests.get` lookup call inside `email_to_sysid`:
either an HTTP response with a status code, a `result` list (read on 200)
and an error message (read otherwise), or a `requests.exceptions.Timeout`. -/
inductive LookupOutcome where
  | response (status_code : Nat) (result : List SysUser) (error_message : String)
  | timeout
deriving DecidableEq, Repr

/-- The `results` dict built by `email_to_sysid`: `value` and `msg` are
`Option` because the corresponding keys are only sometimes set (reading
an absent key is a Python KeyError in the caller). -/
structure LookupResults where
  status : Nat
  value : Option (List SysUser)
  msg : Option String
deriving DecidableEq, Repr

/-- `email_to_sysid(email)`.  `results["status"]` is initialised to 200
before the try block; on HTTP 200 the `result` list is stored under
`value`; on another status code the status is overwritten and `msg` set;
on a Timeout only `msg` is set (the status stays at its initial 200 and
no `value` key exists). -/
def email_to_sysid (net : LookupOutcome) : LookupResults :=
  match net with
  | .response status_code result error_message =>
      if status_code = 200 then
        { status := 200, value := some result, msg := none }
      else
        { status := status_code, value := none,
          msg := some ("ServiceNow error: " ++ error_message) }
  | .timeout =>
      { status := 200, value := none,
        msg := some "Could not connect to ServiceNow (Timeout)" }

/-- Outcome of a slot-validation method: the new slot dict entry plus the
messages dispatched on the way, plus how many times `email_to_sysid` was
invoked (i.e. how many outbound lookup calls were made). -/
structure ValidationOutcome where
  slot : Option String
  messages : List String
  lookup_calls : Nat
deriving DecidableEq, Repr

/-- A Python exception escaping a handler, by name. -/
inductive PyError where
  | keyError (key : String)
  | indexError
deriving DecidableEq, Repr

/-- `OpenIncidentForm.validate_email`.  In local mode it returns at once
(no lookup).  Otherwise it calls `email_to_sysid` and branches on
`results["status"]`; on 200 it reads `results["value"]` (a KeyError when
that key was never set, as after a timeout) and accepts exactly when the
list has length one. -/
def validate_email (localmode : Bool) (value : String) (net : LookupOutcome) :
    Except PyError ValidationOutcome :=
  if localmode then
    .ok { slot := some value, messages := [], lookup_calls := 0 }
  else
    let results := email_to_sysid net
    if results.status = 200 then
      match results.value with
      | none => .error (.keyError "value")
      | some v =>
          if v.length = 1 then
            .ok { slot := some value, messages := [], lookup_calls := 1 }
          else
            .ok { slot := none, messages := ["utter_no_email"], lookup_calls := 1 }
    else
      .ok { slot := none, messages := [results.msg.getD ""], lookup_calls := 1 }

/-- `OpenIncidentForm.priority_db`. -/
def priority_db : List String := ["low", "medium", "high"]

/-- Python `str.lower()`, modelled as per-character ASCII case folding
(all strings this module compares against are ASCII). -/
def py_lower (s : String) : String := ⟨s.data.map Char.toLower⟩

/-- `OpenIncidentForm.validate_priority`: accept iff `value.lower()` is in
`priority_db`, keeping the original (non-lowercased) value; otherwise
clear the slot and utter the `utter_no_priority` template. -/
def validate_priority (value : String) : ValidationOutcome :=
  if py_lower value ∈ priority_db then
    { slot := some value, messages := [], lookup_calls := 0 }
  else
    { slot := none, messages := ["utter_no_priority"], lookup_calls := 0 }

/-- The `if priority == "low" ... elif ... else` chain at the top of
`OpenIncidentForm.submit`, producing `snow_priority`. -/
def snow_priority_of (priority : String) : String :=
  if priority = "low" then "3"
  else if priority = "medium" then "2"
  else "1"

/-- The JSON body built by `create_incident` as an insertion-ordered dict. -/
def create_incident_data (description short_description priority caller : String) :
    List (String × String) :=
  [ ("opened_by", caller),
    ("short_description", short_description),
    ("description", description),
    ("urgency", priority),
    ("caller_id", caller),
    ("comments", description) ]

/-- The local-mode preview message of `OpenIncidentForm.submit`.  The
backslash line-continuation inside the first f-string keeps the 16 leading
spaces of the continued line as part of the string. -/
def local_submit_message (email problem_description incident_title priority : String) :
    String :=
  "An incident with the following details would be opened                 "
  ++ "if ServiceNow was connected:\n"
  ++ "email: " ++ email ++ "\n"
  ++ "problem description: " ++ problem_description ++ "\n"
  ++ "title: " ++ incident_title ++ "\npriority: " ++ priority

/-- The live-mode confirmation message of `OpenIncidentForm.submit`. -/
def live_submit_message (incident_number : String) : String :=
  "Successfully opened up incident " ++ incident_number ++ " for you.  "
  ++ "Someone will reach out soon."

/-- Observable effects of a completed `OpenIncidentForm.submit`: the chat
messages dispatched, the JSON bodies of the POSTs made by
`create_incident`, how many lookup calls were made, and the events
returned to the framework. -/
structure SubmitEffects where
  messages : List String
  posts : List (List (String × String))
  lookup_calls : Nat
  events : List Event
deriving DecidableEq, Repr

/-- `OpenIncidentForm.submit`, given the four filled slots.  `net` is the
outcome of the live-mode `email_to_sysid` lookup and `incident_number` is
`response.json()["result"]["number"]` of the create call; neither is
touched in local mode.  In live mode `results["value"]` is read without
guarding (a KeyError when absent) and indexed at 0 (an IndexError when
empty). -/
def open_incident_submit (localmode : Bool)
    (priority email problem_description incident_title : String)
    (net : LookupOutcome) (incident_number : String) :
    Except PyError SubmitEffects :=
  if localmode then
    .ok { messages :=
            [local_submit_message email problem_description incident_title priority],
          posts := [], lookup_calls := 0, events := [Event.allSlotsReset] }
  else
    match (email_to_sysid net).value with
    | none => .error (.keyError "value")
    | some v =>
        match v.head? with
        | none => .error .indexError
        | some u =>
            .ok { messages := [live_submit_message incident_number],
                  posts := [create_incident_data problem_description
                              incident_title (snow_priority_of priority) u.sys_id],
                  lookup_calls := 1, events := [Event.allSlotsReset] }

/-- A Python exception class relevant to `ActionVersion.run`: the builtin
classes named in its except clause and the classes the `requests` library
actually raises on network failure.  `requests.exceptions.ConnectionError`
and `requests.exceptions.Timeout` both derive from
`RequestException(IOError)` and are not subclasses of the builtin
`ConnectionError` or `TimeoutError`. -/
inductive PyExcClass where
  | builtinConnectionError
  | builtinTimeoutError
  | requestsConnectionError
  | requestsTimeout
deriving DecidableEq, Repr

/-- The Python subclass test `isinstance(e, C)` restricted to the classes
above: each class is an instance of itself and there are no other
subclass relations among these four. -/
def is_instance_of (e c : PyExcClass) : Bool := e = c

/-- Outcome of the `requests.get("http://rasa-x:5002/api/version")` call
plus JSON parsing: either both version strings, or an exception of a given
class.  A refused connection raises `requests.exceptions.ConnectionError`;
a timeout raises `requests.exceptions.Timeout`. -/
inductive VersionQueryOutcome where
  | ok (rasa_x : String) (rasa_production : String)
  | raises (exc : PyExcClass)
deriving DecidableEq, Repr

/-- An ASCII apostrophe, kept out of string literals. -/
def apos : String := (Char.ofNat 39).toString

/-- The success message of `ActionVersion.run`.  Only the first of the
three concatenated literals carries an `f` prefix, so the placeholders of
the second and third lines are emitted verbatim, braces included. -/
def version_message (rasa_x : String) : String :=
  "Rasa X: " ++ rasa_x ++ "\n"
  ++ "Rasa:  \x7brequest[" ++ apos ++ "rasa" ++ apos ++ "][" ++ apos
  ++ "production" ++ apos ++ "]\x7d\nActions: \x7bvers\x7d"

/-- The fixed failure message of `ActionVersion.run`. -/
def cant_connect_message : String := "Can" ++ apos ++ "t connect to Rasa X"

/-- `ActionVersion.run`: dispatch the version message on success; on an
exception, the clause `except (ConnectionError, TimeoutError)` catches
exactly instances of the two builtin classes and dispatches the fixed
message; any other exception escapes the handler.  Returns (dispatched
messages, returned events) or the escaping exception class. -/
def action_version_run (outcome : VersionQueryOutcome) :
    Except PyExcClass (List String × List Event) :=
  match outcome with
  | .ok rasa_x _ => .ok ([version_message rasa_x], [])
  | .raises e =>
      if is_instance_of e .builtinConnectionError
          || is_instance_of e .builtinTimeoutError then
        .ok ([cant_connect_message], [])
      else
        .error e

/-- Whether an event is a SlotSet event. -/
def is_slot_set_event : Event → Bool
  | .slotSet _ _ _ => true
  | _ => false

theorem slot_set_events_from_tracker_eq_filter (l : List Event) :
    slot_set_events_from_tracker l = l.filter is_slot_set_event := by
  induction l with
  | nil => rfl
  | cons e es ih =>
      cases e <;>
        simp [slot_set_events_from_tracker, List.filter, is_slot_set_event,
          List.filterMap_cons] <;>
        simpa [slot_set_events_from_tracker] using ih

theorem getLast?_append_singleton {α : Type} (l : List α) (a : α) :
    (l ++ [a]).getLast? = some a := by
  rw [List.getLast?_append_cons]
  rfl

/-- C1 (counterexample): the stored priority "Low" passes validation
unchanged, but the severity mapping in submit compares with the exact
string "low", so "Low" maps to severity "1", not "3" as claimed. -/
theorem C1_counterexample :
    validate_priority "Low" =
      { slot := some "Low", messages := [], lookup_calls := 0 } ∧
    snow_priority_of "Low" = "1" ∧ snow_priority_of "Low" ≠ "3" := by
  refine ⟨by decide, by decide, by decide⟩

/-- C1 (amended): any input whose lowercase form is in \x7blow, medium,
high\x7d passes priority validation keeping the given value, and any other
input is cleared to null with the `utter_no_priority` warning; at
submission the stored priority maps to severity "3" only for the exact
string "low", "2" only for the exact string "medium", and "1" for every
other stored value (including "Low" and "LOW"). -/
theorem C1_priority_validation_and_severity (v : String) :
    (py_lower v ∈ priority_db →
      validate_priority v = { slot := some v, messages := [], lookup_calls := 0 }) ∧
    (py_lower v ∉ priority_db →
      validate_priority v =
        { slot := none, messages := ["utter_no_priority"], lookup_calls := 0 }) ∧
    snow_priority_of "low" = "3" ∧ snow_priority_of "medium" = "2" ∧
    (v ≠ "low" → v ≠ "medium" → snow_priority_of v = "1") := by
  refine ⟨fun h => ?_, fun h => ?_, by decide, by decide, fun h1 h2 => ?_⟩
  · simp [validate_priority, h]
  · simp [validate_priority, h]
  · simp [snow_priority_of, h1, h2]

/-- C1 (witness): the theorem applied at the inputs "HIGH" and "bogus". -/
theorem C1_severity_witness :
    validate_priority "HIGH" =
      { slot := some "HIGH", messages := [], lookup_calls := 0 } ∧
    snow_priority_of "HIGH" = "1" ∧
    validate_priority "bogus" =
      { slot := none, messages := ["utter_no_priority"], lookup_calls := 0 } :=
  ⟨(C1_priority_validation_and_severity "HIGH").1 (by decide),
   (C1_priority_validation_and_severity "HIGH").2.2.2.2 (by decide) (by decide),
   (C1_priority_validation_and_severity "bogus").2.1 (by decide)⟩

/-- C2: in local mode, email validation accepts any value as-is, sends no
message, and makes no lookup call, for every possible network outcome. -/
theorem C2_local_email_validation (value : String) (net : LookupOutcome) :
    validate_email true value net =
      .ok { slot := some value, messages := [], lookup_calls := 0 } := rfl

/-- C3: in live mode with a status-200 lookup response, email validation
accepts and preserves the original input exactly when the response holds
one matching record; with zero or several records the slot is cleared and
the `utter_no_email` message is dispatched. -/
theorem C3_live_email_validation (value err : String) (records : List SysUser) :
    (records.length = 1 →
      validate_email false value (.response 200 records err) =
        .ok { slot := some value, messages := [], lookup_calls := 1 }) ∧
    (records.length ≠ 1 →
      validate_email false value (.response 200 records err) =
        .ok { slot := none, messages := ["utter_no_email"], lookup_calls := 1 }) := by
  constructor <;> intro h <;>
    simp [validate_email, email_to_sysid, h]

/-- C3 (witness): the theorem applied with a one-record and a zero-record
response. -/
theorem C3_live_email_validation_witness :
    validate_email false "a@b.com" (.response 200 [⟨"u1"⟩] "") =
      .ok { slot := some "a@b.com", messages := [], lookup_calls := 1 } ∧
    validate_email false "a@b.com" (.response 200 [] "") =
      .ok { slot := none, messages := ["utter_no_email"], lookup_calls := 1 } :=
  ⟨(C3_live_email_validation "a@b.com" "" [⟨"u1"⟩]).1 (by decide),
   (C3_live_email_validation "a@b.com" "" []).2 (by decide)⟩

/-- C4: whatever the domain configuration, tracker history and profile
randomness, the session-start event list starts with the session-started
event and ends with action-executed("action_listen"). -/
theorem C4_session_start_event_order (session_config : List (String × Bool))
    (applied_events : List Event) (use_profile_email : Bool)
    (n : Fin mock_users.length) (m : Fin mock_sites.length) :
    (action_session_start_run session_config applied_events use_profile_email n m).head? =
      some Event.sessionStarted ∧
    (action_session_start_run session_config applied_events use_profile_email n m).getLast? =
      some (Event.actionExecuted "action_listen") := by
  constructor
  · rfl
  · unfold action_session_start_run
    exact getLast?_append_singleton _ _

/-- C5: on a network timeout the lookup result keeps the status at its
initial value 200 (set before the try block) with the cannot-connect
message under `msg` and no `value` entry, so live-mode email validation
does not surface the message but raises a KeyError reading
`results["value"]`. -/
theorem C5_timeout_lookup_behavior :
    email_to_sysid .timeout =
      { status := 200, value := none,
        msg := some "Could not connect to ServiceNow (Timeout)" } ∧
    validate_email false "a@b.com" .timeout = .error (.keyError "value") :=
  ⟨rfl, rfl⟩

/-- C6: the JSON body built by `create_incident` has exactly the keys
opened_by, short_description, description, urgency, caller_id, comments;
the description is duplicated into description and comments, the priority
passes through unmodified as urgency, and the caller id fills both
opened_by and caller_id. -/
theorem C6_create_incident_body
    (description short_description priority caller : String) :
    (create_incident_data description short_description priority caller).map
        Prod.fst =
      ["opened_by", "short_description", "description", "urgency",
       "caller_id", "comments"] ∧
    (create_incident_data description short_description priority caller).lookup
        "description" = some description ∧
    (create_incident_data description short_description priority caller).lookup
        "comments" = some description ∧
    (create_incident_data description short_description priority caller).lookup
        "urgency" = some priority ∧
    (create_incident_data description short_description priority caller).lookup
        "opened_by" = some caller ∧
    (create_incident_data description short_description priority caller).lookup
        "caller_id" = some caller ∧
    (create_incident_data description short_description priority caller).lookup
        "short_description" = some short_description := by
  refine ⟨rfl, ?_, ?_, ?_, ?_, ?_, ?_⟩ <;> rfl

/-- C7: the except clause of `ActionVersion.run` names the builtin
ConnectionError and TimeoutError classes; the network failures of the
requests call raise requests.exceptions.ConnectionError or
requests.exceptions.Timeout, which are instances of neither, so those
exceptions propagate instead of producing the fixed message; only a
builtin ConnectionError or TimeoutError would be replaced by the message
and an empty event list. -/
theorem C7_version_network_failure_propagates :
    action_version_run (.raises .requestsConnectionError) =
      .error .requestsConnectionError ∧
    action_version_run (.raises .requestsTimeout) =
      .error .requestsTimeout ∧
    action_version_run (.raises .builtinConnectionError) =
      .ok ([cant_connect_message], []) ∧
    action_version_run (.raises .builtinTimeoutError) =
      .ok ([cant_connect_message], []) :=
  ⟨rfl, rfl, rfl, rfl⟩

/-- C8 (counterexample): with session_config containing carry_over_slots
set to False (carry-over disabled) and one prior SlotSet event, the
session-start handler still emits the carry-over event, because the code
only tests the presence of the key. -/
theorem C8_counterexample :
    action_session_start_run [("carry_over_slots", false)]
        [Event.slotSet "x" (some "1") none] true ⟨0, by decide⟩ ⟨0, by decide⟩ =
      [Event.sessionStarted,
       Event.slotSet "x" (some "1") none,
       Event.slotSet "profile_name" (some "Abel") none,
       Event.slotSet "email" (some "abel.tuter@example.com") none,
       Event.slotSet "profile_site" (some "Berlin") none,
       Event.actionExecuted "action_listen"] ∧
    Event.slotSet "x" (some "1") none ∈
      action_session_start_run [("carry_over_slots", false)]
        [Event.slotSet "x" (some "1") none] true ⟨0, by decide⟩ ⟨0, by decide⟩ := by
  constructor <;> decide

/-- C8 (amended): the session-start handler emits one carry-over event per
prior applied SlotSet event, preserving key, value and metadata, exactly
when the key "carry_over_slots" is present in the session_config of the
domain (whatever value it maps to); when the key is absent no carry-over
event is emitted. -/
theorem C8_carry_over_iff_key_present (session_config : List (String × Bool))
    (applied_events : List Event) (use_profile_email : Bool)
    (n : Fin mock_users.length) (m : Fin mock_sites.length) :
    (dict_has_key session_config "carry_over_slots" = true →
      action_session_start_run session_config applied_events use_profile_email n m =
        [Event.sessionStarted] ++ applied_events.filter is_slot_set_event
          ++ profile_slot_events (generate_mock_profile use_profile_email n m)
          ++ [Event.actionExecuted "action_listen"]) ∧
    (dict_has_key session_config "carry_over_slots" = false →
      action_session_start_run session_config applied_events use_profile_email n m =
        [Event.sessionStarted]
          ++ profile_slot_events (generate_mock_profile use_profile_email n m)
          ++ [Event.actionExecuted "action_listen"]) := by
  constructor <;> intro h <;>
    simp [action_session_start_run, h, slot_set_events_from_tracker_eq_filter]

/-- C8 (witness): the theorem applied with the key present and with an
empty session_config. -/
theorem C8_carry_over_witness :
    action_session_start_run [("carry_over_slots", true)]
        [Event.slotSet "site" (some "Berlin") (some "md")] true
        ⟨0, by decide⟩ ⟨0, by decide⟩ =
      [Event.sessionStarted,
       Event.slotSet "site" (some "Berlin") (some "md"),
       Event.slotSet "profile_name" (some "Abel") none,
       Event.slotSet "email" (some "abel.tuter@example.com") none,
       Event.slotSet "profile_site" (some "Berlin") none,
       Event.actionExecuted "action_listen"] ∧
    action_session_start_run []
        [Event.slotSet "site" (some "Berlin") (some "md")] true
        ⟨0, by decide⟩ ⟨0, by decide⟩ =
      [Event.sessionStarted,
       Event.slotSet "profile_name" (some "Abel") none,
       Event.slotSet "email" (some "abel.tuter@example.com") none,
       Event.slotSet "profile_site" (some "Berlin") none,
       Event.actionExecuted "action_listen"] :=
  ⟨((C8_carry_over_iff_key_present [("carry_over_slots", true)]
      [Event.slotSet "site" (some "Berlin") (some "md")] true
      ⟨0, by decide⟩ ⟨0, by decide⟩).1 (by decide)).trans (by decide),
   ((C8_carry_over_iff_key_present []
      [Event.slotSet "site" (some "Berlin") (some "md")] true
      ⟨0, by decide⟩ ⟨0, by decide⟩).2 (by decide)).trans (by decide)⟩

/-- C9: every submission of the incident form that completes without a
Python exception returns exactly the single bulk all-slots-reset event,
in local and live mode alike; and in local mode with priority "high",
email "a@b.com", description "x" and title "y", the single dispatched
message contains all four collected values and no POST is made and no
lookup call occurs. -/
theorem C9_submit_reset_and_local_scenario :
    (∀ (localmode : Bool) (priority email problem_description incident_title :
          String) (net : LookupOutcome) (incident_number : String)
        (eff : SubmitEffects),
        open_incident_submit localmode priority email problem_description
            incident_title net incident_number = .ok eff →
          eff.events = [Event.allSlotsReset]) ∧
    (∀ (net : LookupOutcome) (incident_number : String),
        open_incident_submit true "high" "a@b.com" "x" "y" net incident_number =
          .ok { messages := [local_submit_message "a@b.com" "x" "y" "high"],
                posts := [], lookup_calls := 0,
                events := [Event.allSlotsReset] }) ∧
    (∃ s t : String,
        local_submit_message "a@b.com" "x" "y" "high" = s ++ "a@b.com" ++ t) ∧
    (∃ s t : String,
        local_submit_message "a@b.com" "x" "y" "high" = s ++ "x" ++ t) ∧
    (∃ s t : String,
        local_submit_message "a@b.com" "x" "y" "high" = s ++ "y" ++ t) ∧
    (∃ s t : String,
        local_submit_message "a@b.com" "x" "y" "high" = s ++ "high" ++ t) := by
  refine ⟨?_, fun net num => rfl, ?_, ?_, ?_, ?_⟩
  · intro lm p em pd ti net num eff h
    unfold open_incident_submit at h
    split at h
    · injection h with h
      subst h
      rfl
    · split at h
      · exact Except.noConfusion h
      · split at h
        · exact Except.noConfusion h
        · injection h with h
          subst h
          rfl
  · exact ⟨"An incident with the following details would be opened                 "
      ++ "if ServiceNow was connected:\nemail: ",
      "\nproblem description: x\ntitle: y\npriority: high", rfl⟩
  · exact ⟨"An incident with the following details would be opened                 "
      ++ "if ServiceNow was connected:\nemail: a@b.com\nproblem description: ",
      "\ntitle: y\npriority: high", rfl⟩
  · exact ⟨"An incident with the following details would be opened                 "
      ++ "if ServiceNow was connected:\nemail: a@b.com\nproblem description: x\ntitle: ",
      "\npriority: high", rfl⟩
  · exact ⟨"An incident with the following details would be opened                 "
      ++ "if ServiceNow was connected:\nemail: a@b.com\nproblem description: x\ntitle: y\npriority: ",
      "", rfl⟩

/-- C9 (witness): the theorem applied to the concrete local-mode
submission. -/
theorem C9_submit_witness :
    open_incident_submit true "high" "a@b.com" "x" "y" .timeout "" =
      .ok { messages := [local_submit_message "a@b.com" "x" "y" "high"],
            posts := [], lookup_calls := 0,
            events := [Event.allSlotsReset] } ∧
    ({ messages := [local_submit_message "a@b.com" "x" "y" "high"],
       posts := [], lookup_calls := 0,
       events := [Event.allSlotsReset] } : SubmitEffects).events =
      [Event.allSlotsReset] :=
  ⟨C9_submit_reset_and_local_scenario.2.1 .timeout "",
   C9_submit_reset_and_local_scenario.1 true "high" "a@b.com" "x" "y"
     .timeout "" _ (C9_submit_reset_and_local_scenario.2.1 .timeout "")⟩

/-- C10: the mock profile always draws its name from the fixed 7-entry
user table and its site from the fixed 8-entry site table; the email is
None exactly when use_profile_email is false, and otherwise it is the
email of the same table record as the chosen name. -/
theorem C10_mock_profile_tables (use_profile_email : Bool)
    (n : Fin mock_users.length) (m : Fin mock_sites.length) :
    mock_users.length = 7 ∧ mock_sites.length = 8 ∧
    (generate_mock_profile use_profile_email n m).profile_name ∈
      mock_users.map Prod.fst ∧
    (generate_mock_profile use_profile_email n m).profile_site ∈ mock_sites ∧
    ((generate_mock_profile use_profile_email n m).email = none ↔
      use_profile_email = false) ∧
    (use_profile_email = true →
      ∃ u ∈ mock_users,
        (generate_mock_profile use_profile_email n m).profile_name = u.1 ∧
        (generate_mock_profile use_profile_email n m).email = some u.2) := by
  refine ⟨rfl, rfl, ?_, ?_, ?_, ?_⟩
  · exact List.mem_map_of_mem Prod.fst (List.get_mem _ _ _)
  · exact List.get_mem _ _ _
  · cases use_profile_email <;> simp [generate_mock_profile]
  · intro h
    subst h
    exact ⟨mock_users.get n, List.get_mem _ _ _, rfl, rfl⟩

/-- C10 (witness): the theorem applied at use_profile_email = true with
the third user and fourth site. -/
theorem C10_mock_profile_witness :
    ∃ u ∈ mock_users,
      (generate_mock_profile true ⟨2, by decide⟩ ⟨3, by decide⟩).profile_name =
        u.1 ∧
      (generate_mock_profile true ⟨2, by decide⟩ ⟨3, by decide⟩).email =
        some u.2 :=
  (C10_mock_profile_tables true ⟨2, by decide⟩ ⟨3, by decide⟩).2.2.2.2.2 rfl

end Helpdesk
